import Mathlib

/-!
Verification of the frame-conversion dispatcher and mode toggle of
`image_toggle_service.cpp` (a ROS2 node republishing camera frames either
in color or grayscale, switchable at runtime).

The pixel data of a `cv::Mat` is embedded as a list of pixels, each pixel a
list of 8-bit channel values (`Nat`, values `< 256` where it matters).  The
per-pixel OpenCV color conversions used by the node (`cv::cvtColor` with
`COLOR_BGR2GRAY`, `COLOR_BGRA2GRAY`, `COLOR_GRAY2BGR`, `COLOR_BGRA2BGR`,
`COLOR_YUV2BGR`) are modelled with OpenCV's fixed-point integer arithmetic
(coefficients scaled by `2 ^ 14`, rounding descale, saturating cast to
`uchar`).  `cv::split`, `cv::merge` and `cv::Mat::zeros` are modelled as the
corresponding plane operations on pixel lists.
-/

namespace ImageToggleService

/-- One image frame: the `rows`/`cols`/`channels` of the `cv::Mat` carried by
the `cv_bridge::CvImage`, its `encoding` string, and the pixel buffer as a
list of per-pixel channel-value lists. -/
structure Frame where
  rows : Nat
  cols : Nat
  channels : Nat
  encoding : String
  data : List (List Nat)
deriving Repr, DecidableEq

/-- Typed failure of the dispatcher: the early `return` after
`RCLCPP_ERROR(..., "Unsupported number of channels: %d", channels)`. -/
inductive ConvError where
  | unsupportedChannelCount (n : Nat)
deriving Repr, DecidableEq

/-- OpenCV `CV_DESCALE(x, 14)` on nonnegative values: add `2 ^ 13` and shift
right by `14`. -/
def cvDescale (x : Nat) : Nat :=
  (x + 8192) / 16384

/-- OpenCV `CV_DESCALE(x, 14)` on possibly negative values: arithmetic right
shift, i.e. floor division by `2 ^ 14`. -/
def cvDescaleInt (x : Int) : Int :=
  Int.fdiv (x + 8192) 16384

/-- OpenCV `saturate_cast<uchar>`: clamp an integer into `[0, 255]`. -/
def satUChar (x : Int) : Nat :=
  if x < 0 then 0 else if 255 < x then 255 else x.toNat

/-- Luma of one `[B, G, R, ...]` pixel, as computed by OpenCV
`COLOR_BGR2GRAY` / `COLOR_BGRA2GRAY`: the ITU-R BT.601 weighted sum with
fixed-point coefficients `B: 1868`, `G: 9617`, `R: 4899` (scale `2 ^ 14`);
any alpha channel is ignored. -/
def bgr2grayPixel (p : List Nat) : Nat :=
  cvDescale (1868 * p.getD 0 0 + 9617 * p.getD 1 0 + 4899 * p.getD 2 0)

/-- One `[Y, U, V]` pixel to `[B, G, R]`, as computed by OpenCV
`COLOR_YUV2BGR`: fixed-point coefficients `U→B: 33292`, `U→G: -6472`,
`V→G: -9519`, `V→R: 18678` (scale `2 ^ 14`), chroma offset `128`, saturating
cast to `uchar`. -/
def yuv2bgrPixel (y u v : Nat) : List Nat :=
  let du : Int := (u : Int) - 128
  let dv : Int := (v : Int) - 128
  let b : Int := (y : Int) + cvDescaleInt (du * 33292)
  let g : Int := (y : Int) + cvDescaleInt (du * (-6472) + dv * (-9519))
  let r : Int := (y : Int) + cvDescaleInt (dv * 18678)
  [satUChar b, satUChar g, satUChar r]

/-- Model of `cv::cvtColor(input, out, COLOR_BGR2GRAY)` on the pixel buffer. -/
def cvtColorBGR2GRAY (data : List (List Nat)) : List (List Nat) :=
  data.map fun p => [bgr2grayPixel p]

/-- Model of `cv::cvtColor(input, out, COLOR_BGRA2GRAY)` on the pixel buffer
(same weighted sum, alpha discarded). -/
def cvtColorBGRA2GRAY (data : List (List Nat)) : List (List Nat) :=
  data.map fun p => [bgr2grayPixel p]

/-- Model of `cv::cvtColor(input, out, COLOR_GRAY2BGR)` on the pixel buffer:
replicate the single value into three channels. -/
def cvtColorGRAY2BGR (data : List (List Nat)) : List (List Nat) :=
  data.map fun p => [p.getD 0 0, p.getD 0 0, p.getD 0 0]

/-- Model of `cv::cvtColor(input, out, COLOR_BGRA2BGR)` on the pixel buffer:
drop the alpha channel. -/
def cvtColorBGRA2BGR (data : List (List Nat)) : List (List Nat) :=
  data.map fun p => p.take 3

/-- Model of `cv::cvtColor(input, out, COLOR_YUV2BGR)` on the pixel buffer. -/
def cvtColorYUV2BGR (data : List (List Nat)) : List (List Nat) :=
  data.map fun p => yuv2bgrPixel (p.getD 0 0) (p.getD 1 0) (p.getD 2 0)

/-- Plane `i` of `cv::split(input, channels_vec)`: channel `i` of every
pixel. -/
def splitPlane (i : Nat) (data : List (List Nat)) : List Nat :=
  data.map fun p => p.getD i 0

/-- Model of `cv::Mat::zeros(plane.size(), ...)`: an all-zero plane of the
same size. -/
def zerosLike (plane : List Nat) : List Nat :=
  plane.map fun _ => 0

/-- View a single plane as a 1-channel pixel buffer (a single-channel
`cv::Mat`). -/
def planeToMat (plane : List Nat) : List (List Nat) :=
  plane.map fun v => [v]

/-- Model of `cv::merge` of three planes into a 3-channel pixel buffer. -/
def merge3 (a b c : List Nat) : List (List Nat) :=
  List.zipWith3 (fun x y z => [x, y, z]) a b c

/-- The conversion dispatcher inside `ImageToggleService::imageCallback`
(lines 46-119): branch on the current `use_grayscale_` flag and the input
channel count, produce the processed pixel buffer and the updated encoding,
or fail on an unsupported channel count.  Branches appear in source
order. -/
def imageCallback (use_grayscale : Bool) (msg : Frame) : Except ConvError Frame :=
  let channels := msg.channels
  if use_grayscale then
    if channels = 3 then
      Except.ok { msg with data := cvtColorBGR2GRAY msg.data, channels := 1,
                           encoding := "mono8" }
    else if channels = 4 then
      Except.ok { msg with data := cvtColorBGRA2GRAY msg.data, channels := 1,
                           encoding := "mono8" }
    else if channels = 2 then
      let channels_vec_0 := splitPlane 0 msg.data
      Except.ok { msg with data := planeToMat channels_vec_0, channels := 1,
                           encoding := "mono8" }
    else if channels = 1 then
      Except.ok { msg with encoding := "mono8" }
    else
      Except.error (ConvError.unsupportedChannelCount channels)
  else
    if channels = 1 then
      Except.ok { msg with data := cvtColorGRAY2BGR msg.data, channels := 3,
                           encoding := "bgr8" }
    else if channels = 3 then
      Except.ok { msg with encoding := "bgr8" }
    else if channels = 4 then
      Except.ok { msg with data := cvtColorBGRA2BGR msg.data, channels := 3,
                           encoding := "bgr8" }
    else if channels = 2 then
      let channels_vec_0 := splitPlane 0 msg.data
      let channels_vec_1 := splitPlane 1 msg.data
      let uv_dummy := zerosLike channels_vec_0
      let yuv_image := merge3 channels_vec_0 uv_dummy uv_dummy
      let _ := channels_vec_1
      Except.ok { msg with data := cvtColorYUV2BGR yuv_image, channels := 3,
                           encoding := "bgr8" }
    else
      Except.error (ConvError.unsupportedChannelCount channels)

/-- The mode enumeration of the spec: `COLOR` / `GRAYSCALE`. -/
inductive Mode where
  | COLOR
  | GRAYSCALE
deriving Repr, DecidableEq

/-- The mode denoted by the `use_grayscale_` flag. -/
def modeOf (use_grayscale : Bool) : Mode :=
  if use_grayscale then Mode.GRAYSCALE else Mode.COLOR

/-- Initial value of `use_grayscale_`: the constructor initialiser
`use_grayscale_(false)`. -/
def initUseGrayscale : Bool := false

/-- A `std_srvs::srv::SetBool` response. -/
structure SetBoolResponse where
  success : Bool
  message : String
deriving Repr, DecidableEq

/-- Model of `ImageToggleService::handleToggleRequest` (lines 131-139): store the
request into `use_grayscale_`, then answer `success = true` with the message
chosen by the new flag value.  Returns the new flag and the response. -/
def handleToggleRequest (use_grayscale : Bool) (request : Bool) :
    Bool × SetBoolResponse :=
  let use_grayscale := request
  (use_grayscale,
   { success := true,
     message := if use_grayscale then "Switched to grayscale mode."
                else "Switched to color mode." })

/-- An externally triggered callback of the node: an arriving frame or a
toggle request. -/
inductive NodeEvent where
  | image (msg : Frame)
  | toggle (request : Bool)

/-- One callback execution: the new `use_grayscale_` flag and the frame
published on `/image_processed`, if any.  An image callback publishes the
converted frame exactly when conversion succeeds and never touches the flag;
a toggle callback publishes nothing and updates the flag. -/
def nodeStep (use_grayscale : Bool) (e : NodeEvent) : Bool × Option Frame :=
  match e with
  | NodeEvent.image msg => (use_grayscale, (imageCallback use_grayscale msg).toOption)
  | NodeEvent.toggle request => ((handleToggleRequest use_grayscale request).1, none)

/-- The `use_grayscale_` flag after a sequence of callbacks. -/
def runEvents (use_grayscale : Bool) : List NodeEvent → Bool
  | [] => use_grayscale
  | e :: es => runEvents (nodeStep use_grayscale e).1 es

/-- A 1-channel 2×2 frame with values `[0, 128, 255, 64]` (the spec's §8
scenario). -/
def gray2x2 : Frame :=
  { rows := 2, cols := 2, channels := 1, encoding := "mono8",
    data := [[0], [128], [255], [64]] }

/-- A 3-channel 2×2 all-white frame. -/
def white2x2 : Frame :=
  { rows := 2, cols := 2, channels := 3, encoding := "bgr8",
    data := [[255, 255, 255], [255, 255, 255], [255, 255, 255], [255, 255, 255]] }

/-- A 2-channel 1×2 frame (luminance plus one combined chroma channel). -/
def yuv1x2 : Frame :=
  { rows := 1, cols := 2, channels := 2, encoding := "yuv-2ch",
    data := [[100, 7], [200, 9]] }

/-- A 5-channel 1×1 frame (unsupported). -/
def fiveChan : Frame :=
  { rows := 1, cols := 1, channels := 5, encoding := "5ch",
    data := [[1, 2, 3, 4, 5]] }



lemma merge3_splitPlane_zeros (d : List (List Nat)) :
    merge3 (splitPlane 0 d) (zerosLike (splitPlane 0 d)) (zerosLike (splitPlane 0 d))
      = d.map fun p => [p.getD 0 0, 0, 0] := by
  induction d with
  | nil => rfl
  | cons p d ih =>
    exact congrArg (List.cons [p.getD 0 0, 0, 0]) ih

lemma imageCallback_gs1 (msg : Frame) (h : msg.channels = 1) :
    imageCallback true msg = Except.ok { msg with encoding := "mono8" } := by
  simp [imageCallback, h]

lemma imageCallback_gs2 (msg : Frame) (h : msg.channels = 2) :
    imageCallback true msg
      = Except.ok { msg with data := planeToMat (splitPlane 0 msg.data),
                             channels := 1, encoding := "mono8" } := by
  simp [imageCallback, h]

lemma imageCallback_gs3 (msg : Frame) (h : msg.channels = 3) :
    imageCallback true msg
      = Except.ok { msg with data := cvtColorBGR2GRAY msg.data,
                             channels := 1, encoding := "mono8" } := by
  simp [imageCallback, h]

lemma imageCallback_gs4 (msg : Frame) (h : msg.channels = 4) :
    imageCallback true msg
      = Except.ok { msg with data := cvtColorBGRA2GRAY msg.data,
                             channels := 1, encoding := "mono8" } := by
  simp [imageCallback, h]

lemma imageCallback_col1 (msg : Frame) (h : msg.channels = 1) :
    imageCallback false msg
      = Except.ok { msg with data := cvtColorGRAY2BGR msg.data,
                             channels := 3, encoding := "bgr8" } := by
  simp [imageCallback, h]

lemma imageCallback_col2 (msg : Frame) (h : msg.channels = 2) :
    imageCallback false msg
      = Except.ok { msg with
          data := cvtColorYUV2BGR
            (merge3 (splitPlane 0 msg.data) (zerosLike (splitPlane 0 msg.data))
              (zerosLike (splitPlane 0 msg.data))),
          channels := 3, encoding := "bgr8" } := by
  simp [imageCallback, h]

lemma imageCallback_col3 (msg : Frame) (h : msg.channels = 3) :
    imageCallback false msg = Except.ok { msg with encoding := "bgr8" } := by
  simp [imageCallback, h]

lemma imageCallback_col4 (msg : Frame) (h : msg.channels = 4) :
    imageCallback false msg
      = Except.ok { msg with data := cvtColorBGRA2BGR msg.data,
                             channels := 3, encoding := "bgr8" } := by
  simp [imageCallback, h]

/-- C1: for every input frame whose channel count is in {1, 2, 3, 4} and for
both values of the grayscale flag, the conversion succeeds, and the output
frame carries encoding "mono8" with 1 channel under GRAYSCALE, and encoding
"bgr8" with 3 channels under COLOR. -/
theorem convert_dispatch_table (msg : Frame) (g : Bool)
    (h : msg.channels ∈ ([1, 2, 3, 4] : List Nat)) :
    ∃ out, imageCallback g msg = Except.ok out ∧
      out.encoding = (if g then "mono8" else "bgr8") ∧
      out.channels = (if g then 1 else 3) := by
  simp only [List.mem_cons, List.not_mem_nil, or_false] at h
  cases g with
  | true =>
    rcases h with h | h | h | h
    · exact ⟨_, imageCallback_gs1 msg h, rfl, h⟩
    · exact ⟨_, imageCallback_gs2 msg h, rfl, rfl⟩
    · exact ⟨_, imageCallback_gs3 msg h, rfl, rfl⟩
    · exact ⟨_, imageCallback_gs4 msg h, rfl, rfl⟩
  | false =>
    rcases h with h | h | h | h
    · exact ⟨_, imageCallback_col1 msg h, rfl, rfl⟩
    · exact ⟨_, imageCallback_col2 msg h, rfl, rfl⟩
    · exact ⟨_, imageCallback_col3 msg h, rfl, h⟩
    · exact ⟨_, imageCallback_col4 msg h, rfl, rfl⟩

/-- Witness for C1: a 3-channel all-white 2×2 frame under GRAYSCALE mode. -/
theorem convert_dispatch_table_witness :
    ∃ out, imageCallback true white2x2 = Except.ok out ∧
      out.encoding = (if true then "mono8" else "bgr8") ∧
      out.channels = (if true then 1 else 3) :=
  convert_dispatch_table white2x2 true (by decide)

/-- C2: for every input frame whose channel count is not in {1, 2, 3, 4},
under either mode, conversion returns the typed failure
`UnsupportedChannelCount(n)` with `n` the offending channel count, and the
image callback publishes nothing. -/
theorem convert_unsupported_channels (msg : Frame) (g : Bool)
    (h : msg.channels ∉ ([1, 2, 3, 4] : List Nat)) :
    imageCallback g msg
        = Except.error (ConvError.unsupportedChannelCount msg.channels) ∧
      (nodeStep g (NodeEvent.image msg)).2 = none := by
  simp only [List.mem_cons, List.not_mem_nil, or_false, not_or] at h
  obtain ⟨h1, h2, h3, h4⟩ := h
  cases g <;>
    simp [nodeStep, imageCallback, h1, h2, h3, h4, Except.toOption]

/-- Witness for C2: a 5-channel frame under GRAYSCALE mode. -/
theorem convert_unsupported_channels_witness :
    imageCallback true fiveChan
        = Except.error (ConvError.unsupportedChannelCount 5) ∧
      (nodeStep true (NodeEvent.image fiveChan)).2 = none :=
  convert_unsupported_channels fiveChan true (by decide)

/-- C3: converting a frame already in the target representation is a
pixel-level no-op: a 1-channel frame under GRAYSCALE and a 3-channel frame
under COLOR come out with a pixel buffer equal to the input buffer. -/
theorem convert_target_noop (msg : Frame) :
    (msg.channels = 1 →
      ∃ out, imageCallback true msg = Except.ok out ∧ out.data = msg.data) ∧
    (msg.channels = 3 →
      ∃ out, imageCallback false msg = Except.ok out ∧ out.data = msg.data) :=
  ⟨fun h => ⟨_, imageCallback_gs1 msg h, rfl⟩,
   fun h => ⟨_, imageCallback_col3 msg h, rfl⟩⟩

/-- Witness for C3: the 1-channel 2×2 frame under GRAYSCALE and the
3-channel all-white 2×2 frame under COLOR. -/
theorem convert_target_noop_witness :
    (∃ out, imageCallback true gray2x2 = Except.ok out ∧
      out.data = gray2x2.data) ∧
    (∃ out, imageCallback false white2x2 = Except.ok out ∧
      out.data = white2x2.data) :=
  ⟨(convert_target_noop gray2x2).1 rfl, (convert_target_noop white2x2).2 rfl⟩

/-- C4: for every 1-channel frame under COLOR mode the output is a 3-channel
frame of the same dimensions tagged "bgr8" in which every pixel replicates
that pixel's single input value into all three channels. -/
theorem convert_gray_to_bgr (msg : Frame) (h : msg.channels = 1) :
    ∃ out, imageCallback false msg = Except.ok out ∧
      out.channels = 3 ∧ out.rows = msg.rows ∧ out.cols = msg.cols ∧
      out.encoding = "bgr8" ∧
      out.data = msg.data.map (fun p => [p.getD 0 0, p.getD 0 0, p.getD 0 0]) ∧
      ∀ (i : Nat) (v : Nat), msg.data[i]? = some [v]
        → out.data[i]? = some [v, v, v] := by
  refine ⟨_, imageCallback_col1 msg h, rfl, rfl, rfl, rfl, rfl, ?_⟩
  intro i v hv
  simp [cvtColorGRAY2BGR, List.getElem?_map, hv]

/-- Witness for C4: the spec's §8 scenario, a 1-channel 2×2 frame with
values [0, 128, 255, 64] under COLOR mode. -/
theorem convert_gray_to_bgr_witness :
    ∃ out, imageCallback false gray2x2 = Except.ok out ∧
      out.channels = 3 ∧ out.rows = gray2x2.rows ∧ out.cols = gray2x2.cols ∧
      out.encoding = "bgr8" ∧
      out.data = [[0, 0, 0], [128, 128, 128], [255, 255, 255], [64, 64, 64]] := by
  obtain ⟨out, hok, hch, hr, hc, henc, hdata, _⟩ :=
    convert_gray_to_bgr gray2x2 rfl
  exact ⟨out, hok, hch, hr, hc, henc, by rw [hdata]; rfl⟩

/-- C5: for every 2-channel frame under COLOR mode the output is the
3-channel frame tagged "bgr8" obtained by merging the input's channel-0
plane as luminance with two zero planes as chroma (so the reconstruction
keeps the luminance and has zero-derived chroma) and converting each
resulting `[y, 0, 0]` triple to BGR. -/
theorem convert_yuv2_to_bgr (msg : Frame) (h : msg.channels = 2) :
    ∃ out, imageCallback false msg = Except.ok out ∧
      out.channels = 3 ∧ out.encoding = "bgr8" ∧
      merge3 (splitPlane 0 msg.data) (zerosLike (splitPlane 0 msg.data))
          (zerosLike (splitPlane 0 msg.data))
        = msg.data.map (fun p => [p.getD 0 0, 0, 0]) ∧
      out.data = msg.data.map (fun p => yuv2bgrPixel (p.getD 0 0) 0 0) := by
  refine ⟨_, imageCallback_col2 msg h, rfl, rfl,
    merge3_splitPlane_zeros msg.data, ?_⟩
  show cvtColorYUV2BGR
      (merge3 (splitPlane 0 msg.data) (zerosLike (splitPlane 0 msg.data))
        (zerosLike (splitPlane 0 msg.data))) = _
  rw [merge3_splitPlane_zeros]
  simp [cvtColorYUV2BGR, List.map_map, Function.comp]

/-- Witness for C5: a 2-channel 1×2 frame under COLOR mode. -/
theorem convert_yuv2_to_bgr_witness :
    ∃ out, imageCallback false yuv1x2 = Except.ok out ∧
      out.channels = 3 ∧ out.encoding = "bgr8" ∧
      merge3 (splitPlane 0 yuv1x2.data) (zerosLike (splitPlane 0 yuv1x2.data))
          (zerosLike (splitPlane 0 yuv1x2.data))
        = yuv1x2.data.map (fun p => [p.getD 0 0, 0, 0]) ∧
      out.data = yuv1x2.data.map (fun p => yuv2bgrPixel (p.getD 0 0) 0 0) :=
  convert_yuv2_to_bgr yuv1x2 rfl

/-- C6: for every 2-channel frame under GRAYSCALE mode the output pixel
buffer is exactly the input's channel-0 (luminance) plane, channel 1 is
discarded, and the output is a 1-channel frame tagged "mono8". -/
theorem convert_yuv2_to_mono (msg : Frame) (h : msg.channels = 2) :
    ∃ out, imageCallback true msg = Except.ok out ∧
      out.encoding = "mono8" ∧ out.channels = 1 ∧
      out.data = planeToMat (splitPlane 0 msg.data) ∧
      out.data = msg.data.map (fun p => [p.getD 0 0]) := by
  refine ⟨_, imageCallback_gs2 msg h, rfl, rfl, rfl, ?_⟩
  show planeToMat (splitPlane 0 msg.data) = _
  simp [planeToMat, splitPlane, List.map_map, Function.comp]

/-- Witness for C6: a 2-channel 1×2 frame under GRAYSCALE mode. -/
theorem convert_yuv2_to_mono_witness :
    ∃ out, imageCallback true yuv1x2 = Except.ok out ∧
      out.encoding = "mono8" ∧ out.channels = 1 ∧
      out.data = planeToMat (splitPlane 0 yuv1x2.data) ∧
      out.data = yuv1x2.data.map (fun p => [p.getD 0 0]) :=
  convert_yuv2_to_mono yuv1x2 rfl

/-- C7: every toggle request with boolean value `b` succeeds: it sets the
mode to GRAYSCALE when `b` is true and COLOR when `b` is false, answers
`success = true` with the corresponding message, and repeating the same
request is observably a no-op (same acknowledgement, mode unchanged). -/
theorem toggle_contract (g b : Bool) :
    (handleToggleRequest g b).1 = b ∧
    modeOf (handleToggleRequest g b).1
        = (if b then Mode.GRAYSCALE else Mode.COLOR) ∧
    (handleToggleRequest g b).2.success = true ∧
    (handleToggleRequest g b).2.message
        = (if b then "Switched to grayscale mode."
           else "Switched to color mode.") ∧
    handleToggleRequest (handleToggleRequest g b).1 b
        = handleToggleRequest g b := by
  cases b <;> simp [handleToggleRequest, modeOf]

/-- C8: the mode is initialized to COLOR at process start; an image
callback, whether its conversion succeeds or fails, never changes the
`use_grayscale_` flag; only a toggle callback writes it; hence over any
sequence of callbacks containing no toggle the flag keeps its value. -/
theorem mode_invariant :
    modeOf initUseGrayscale = Mode.COLOR ∧
    (∀ g msg, (nodeStep g (NodeEvent.image msg)).1 = g) ∧
    (∀ g b, (nodeStep g (NodeEvent.toggle b)).1 = b) ∧
    (∀ g es, (∀ e ∈ es, ∀ b, e ≠ NodeEvent.toggle b) → runEvents g es = g) := by
  refine ⟨rfl, fun g msg => rfl, fun g b => rfl, fun g es h => ?_⟩
  induction es generalizing g with
  | nil => rfl
  | cons e es ih =>
    cases e with
    | image msg => exact ih g fun e he => h e (List.mem_cons_of_mem _ he)
    | toggle b => exact absurd rfl (h _ (List.mem_cons_self _ _) b)

/-- Witness for C8: two image callbacks (one succeeding, one failing) leave
the initial flag unchanged. -/
theorem mode_invariant_witness :
    runEvents initUseGrayscale
        [NodeEvent.image gray2x2, NodeEvent.image fiveChan]
      = initUseGrayscale :=
  mode_invariant.2.2.2 initUseGrayscale _
    (by intro e he b; simp at he; rcases he with h | h <;> simp [h])

/-- C10: for every input frame with channel count in {1, 2, 3, 4} and either
mode, the output frame has the same `rows` and `cols` as the input: every
supported transform preserves the image dimensions. -/
theorem convert_preserves_dims (msg : Frame) (g : Bool)
    (h : msg.channels ∈ ([1, 2, 3, 4] : List Nat)) :
    ∃ out, imageCallback g msg = Except.ok out ∧
      out.rows = msg.rows ∧ out.cols = msg.cols := by
  simp only [List.mem_cons, List.not_mem_nil, or_false] at h
  cases g with
  | true =>
    rcases h with h | h | h | h
    · exact ⟨_, imageCallback_gs1 msg h, rfl, rfl⟩
    · exact ⟨_, imageCallback_gs2 msg h, rfl, rfl⟩
    · exact ⟨_, imageCallback_gs3 msg h, rfl, rfl⟩
    · exact ⟨_, imageCallback_gs4 msg h, rfl, rfl⟩
  | false =>
    rcases h with h | h | h | h
    · exact ⟨_, imageCallback_col1 msg h, rfl, rfl⟩
    · exact ⟨_, imageCallback_col2 msg h, rfl, rfl⟩
    · exact ⟨_, imageCallback_col3 msg h, rfl, rfl⟩
    · exact ⟨_, imageCallback_col4 msg h, rfl, rfl⟩

/-- Witness for C10: the 2-channel 1×2 frame under COLOR mode. -/
theorem convert_preserves_dims_witness :
    ∃ out, imageCallback false yuv1x2 = Except.ok out ∧
      out.rows = yuv1x2.rows ∧ out.cols = yuv1x2.cols :=
  convert_preserves_dims yuv1x2 false (by decide)

end ImageToggleService
